import Mathlib

/-!
Verification of the coordinator-and-retry subsystem of the CEM monitoring
integration (`custom_components/cem_monitor`).  The Python source is shallowly
embedded: exceptions become an explicit error datatype, async calls become
outcome-valued functions indexed by the attempt number, and the retry /
coordinator / batch-refresh control flow becomes pure Lean functions mirroring
the source line by line.  Floating-point payload values are modelled as
integers (no claim depends on float semantics); logging and sleep delays are
dropped (no claim mentions them).
-/

namespace CEM

/-! ## Error model (aiohttp exception taxonomy seen by `utils/retry.py`)

`responseError` is `aiohttp.ClientResponseError` (carries an HTTP status);
`connectorError` is `ClientConnectorError`; `serverTimeout` is
`ServerTimeoutError`; `asyncTimeout` is `asyncio.TimeoutError`; `clientOther`
is any other `aiohttp.ClientError`; `nonNetwork` is everything else
(`ValueError`, programmer errors, ...).  `text` is the result of `str(error)`;
`none` models a `str` call that itself raises. -/

inductive ErrKind where
  | responseError
  | connectorError
  | serverTimeout
  | asyncTimeout
  | clientOther
  | nonNetwork
deriving DecidableEq

structure PyError where
  kind : ErrKind
  status : Nat
  text : Option String
deriving DecidableEq

/-- Embeds `is_retryable_error` (utils/retry.py:23-57): HTTP 5xx retryable,
4xx not retryable, connection/timeout errors retryable, other aiohttp client
errors retryable, everything else not. -/
def is_retryable_error (e : PyError) : Bool :=
  match e.kind with
  | .responseError =>
      if 500 ≤ e.status ∧ e.status < 600 then true
      else if 400 ≤ e.status ∧ e.status < 500 then false
      else false
  | .connectorError => true
  | .serverTimeout => true
  | .asyncTimeout => true
  | .clientOther => true
  | .nonNetwork => false

/-- `needle` occurs at the head of the haystack. -/
def leadsWith : List Char → List Char → Bool
  | [], _ => true
  | _ :: _, [] => false
  | n :: ns, h :: hs => n == h && leadsWith ns hs

/-- `needle` occurs somewhere in the haystack (Python `needle in s`). -/
def hasSub (needle : List Char) : List Char → Bool
  | [] => needle.isEmpty
  | h :: hs => leadsWith needle (h :: hs) || hasSub needle hs

/-- Python `"401" in error_str`. -/
def containsFourOhOne (s : String) : Bool :=
  hasSub ("401".toList) s.toList

/-- Embeds `is_401_error` (utils/retry.py:60-71): a `ClientResponseError` is a
401 iff its status is 401; for any other error fall back to searching the
textual representation for "401", returning false if `str(error)` raises. -/
def is_401_error (e : PyError) : Bool :=
  match e.kind with
  | .responseError => e.status == 401
  | _ =>
      match e.text with
      | some s => containsFourOhOne s
      | none => false

/-! ## Backoff retrier (`async_retry_with_backoff`, utils/retry.py:74-161)

The wrapped coroutine `func` is modelled as `f : Nat → Outcome α` giving the
outcome of its k-th invocation (0-indexed).  The retrier's result is a value,
a re-raised operation error, or the `RuntimeError("Unexpected error in retry
logic")` fallback after the loop; the call count is returned alongside. -/

inductive Outcome (α : Type) where
  | ok (v : α)
  | fail (e : PyError)
deriving DecidableEq

inductive RetryResult (α : Type) where
  | value (v : α)
  | raised (e : PyError)
  | runtimeError
deriving DecidableEq

/-- The `for attempt in range(max_retries + 1)` loop followed by the
post-loop fallback (`raise last_exception` / `raise RuntimeError(...)`).
`remaining` is the number of loop iterations still to run; `last` is
`last_exception`.  Backoff delays and jitter are elided (they do not change
the control flow). -/
def retryGo (f : Nat → Outcome α) (maxR : Nat) :
    Nat → Nat → Option PyError → RetryResult α × Nat
  | attempt, 0, last =>
      (match last with
       | some e => .raised e
       | none => .runtimeError, attempt)
  | attempt, r + 1, _ =>
      match f attempt with
      | .ok v => (.value v, attempt + 1)
      | .fail e =>
          if is_retryable_error e = false then (.raised e, attempt + 1)
          else if maxR ≤ attempt then (.raised e, attempt + 1)
          else retryGo f maxR (attempt + 1) r (some e)

/-- Embeds `async_retry_with_backoff`: default `max_retries = 3` at call
sites; returns (result, number of calls to the operation). -/
def async_retry_with_backoff (f : Nat → Outcome α) (max_retries : Nat) :
    RetryResult α × Nat :=
  retryGo f max_retries 0 (max_retries + 1) none

/-! ## Batch read-many endpoint (`CEMClient.get_counter_readings_batch`,
api.py:314-392)

A raw reading from the JSON payload: `var_id = none` covers both a missing
`var_id` field and one that fails `int(...)` conversion (both branches
`continue`); numeric fields are modelled as integers. -/

structure RawReading where
  varId : Option Int
  value : Option Int
  timestamp : Option Int
deriving DecidableEq

structure Reading where
  value : Int
  timestamp_ms : Int
deriving DecidableEq

/-- The JSON body of the id=8 batch response: a bare array, a
`{"data": [...]}` wrapper, or anything else (which raises `ValueError`). -/
inductive BatchPayload where
  | list (rs : List RawReading)
  | dataWrapped (rs : List RawReading)
  | notAList
deriving DecidableEq

/-- One loop step of building `result` (api.py:353-373): skip readings with a
missing/invalid `var_id` or a missing `value`/`timestamp`. -/
def parseReading (r : RawReading) : Option (Int × Reading) :=
  match r.varId with
  | none => none
  | some vid =>
      match r.value, r.timestamp with
      | some v, some ts => some (vid, ⟨v, ts⟩)
      | _, _ => none

/-- Python dict assignment `result[var_id] = ...`: replace an existing key,
else append. -/
def setKey : List (Int × Reading) → Int → Reading → List (Int × Reading)
  | [], k, v => [(k, v)]
  | (k', v') :: rest, k, v =>
      if k' = k then (k, v) :: rest else (k', v') :: setKey rest k v

/-- First (hence, with `setKey`-built maps, unique) binding of `k`. -/
def lookupKey : List (Int × Reading) → Int → Option Reading
  | [], _ => none
  | (k', v') :: rest, k => if k' = k then some v' else lookupKey rest k

/-- The `result` dict built from the response array (api.py:351-373). -/
def buildBatchResult (readings : List RawReading) : List (Int × Reading) :=
  readings.foldl
    (fun acc r =>
      match parseReading r with
      | some (k, v) => setKey acc k v
      | none => acc)
    []

/-- One attempt of `_do_get_counter_readings_batch` (api.py:325-388) applied
to an already-received payload: unwrap `data`, raise `ValueError` on a
non-list, return `{}` on an empty list while var_ids were requested, else the
parsed dict. -/
def doBatchOnce (var_ids : List Int) (p : BatchPayload) :
    Outcome (List (Int × Reading)) :=
  match p with
  | .notAList => .fail ⟨.nonNetwork, 0, some "id=8 batch unexpected response"⟩
  | .list rs =>
      if rs.isEmpty ∧ ¬ var_ids.isEmpty then .ok []
      else .ok (buildBatchResult rs)
  | .dataWrapped rs =>
      if rs.isEmpty ∧ ¬ var_ids.isEmpty then .ok []
      else .ok (buildBatchResult rs)

/-- One attempt of `_do_get_counter_readings_batch` including the transport:
`transport` is the outcome of the POST itself (an HTTP/network error, or a
payload). -/
def doBatchAttempt (var_ids : List Int) (transport : Outcome BatchPayload) :
    Outcome (List (Int × Reading)) :=
  match transport with
  | .fail e => .fail e
  | .ok p => doBatchOnce var_ids p

/-- `get_counter_readings_batch`: the attempt wrapped by
`async_retry_with_backoff` with the default `max_retries = 3`. -/
def get_counter_readings_batch (var_ids : List Int)
    (transport : Nat → Outcome BatchPayload) :
    RetryResult (List (Int × Reading)) × Nat :=
  async_retry_with_backoff (fun k => doBatchAttempt var_ids (transport k)) 3

/-! ## Batch refresh tick (`_counter_refresh_callback` / `_do_batch_refresh`,
custom_components/cem_monitor/__init__.py:480-543) -/

/-- What the tick does to one tracked coordinator: overwrite `coord.data`
from the batch response, or schedule its own `async_request_refresh`. -/
inductive CoordAction where
  | updatedFromBatch (r : Reading)
  | individualRepoll
deriving DecidableEq

structure TickEnv where
  /-- `var_ids = list(counter_map_local.keys())` -/
  tracked : List Int
  /-- `auth_local and auth_local.token` is truthy -/
  hasToken : Bool
  /-- `bag.get("client")` is truthy -/
  hasClient : Bool
  /-- outcome of the k-th POST of the batch endpoint this tick -/
  transport : Nat → Outcome BatchPayload

structure TickResult where
  /-- per-coordinator effect, in tracking order -/
  actions : List (Int × CoordAction)
  /-- number of POSTs to the combined id=8 endpoint this tick -/
  batchCalls : Nat
  /-- number of forced credential refreshes (`auth.async_request_refresh`)
  performed by the tick itself -/
  authRefreshes : Nat
deriving DecidableEq

/-- Embeds `_do_batch_refresh`: empty map → nothing; missing token or client
→ every coordinator is individually re-polled without touching the batch
endpoint; otherwise one `get_counter_readings_batch` call, whose success
updates coordinators whose key is present and individually re-polls the rest,
and whose failure (any exception) individually re-polls everyone. -/
def counterRefreshTick (env : TickEnv) : TickResult :=
  if env.tracked.isEmpty then ⟨[], 0, 0⟩
  else if env.hasToken = false then
    ⟨env.tracked.map (fun vid => (vid, .individualRepoll)), 0, 0⟩
  else if env.hasClient = false then
    ⟨env.tracked.map (fun vid => (vid, .individualRepoll)), 0, 0⟩
  else
    match get_counter_readings_batch env.tracked env.transport with
    | (.value m, n) =>
        ⟨env.tracked.map
          (fun vid =>
            (vid,
             match lookupKey m vid with
             | some r => .updatedFromBatch r
             | none => .individualRepoll)),
         n, 0⟩
    | (.raised _, n) =>
        ⟨env.tracked.map (fun vid => (vid, .individualRepoll)), n, 0⟩
    | (.runtimeError, n) =>
        ⟨env.tracked.map (fun vid => (vid, .individualRepoll)), n, 0⟩

/-! ## Auth coordinator (`CEMAuthCoordinator`, coordinator.py /
coordinators/base.py) -/

/-- `AuthResult` as stored in `CEMAuthCoordinator._last_result`. -/
structure AuthResult where
  access_token : String
  valid_to_ms : Int
  cookie_value : Option String
deriving DecidableEq

/-- `self._auth.token`: `access_token` of the last result, if any. -/
def tokenOf (st : Option AuthResult) : Option String :=
  st.map (fun r => r.access_token)

/-- Python truthiness of the token: `None` and `""` are falsy. -/
def truthyToken (t : Option String) : Bool :=
  match t with
  | none => false
  | some s => ¬ s.isEmpty

/-- Effect of `async_request_refresh` on `_last_result`: a successful
`authenticate` overwrites it (coordinator.py:56), a raising one leaves it
unchanged (the assignment is never reached). -/
def stateAfterRefresh (st : Option AuthResult) (auth : Outcome AuthResult) :
    Option AuthResult :=
  match auth with
  | .ok r => some r
  | .fail _ => st

inductive EnsureResult where
  | gotToken (token : String) (cookie : Option String)
  | noTokenError
deriving DecidableEq

/-- Embeds `_ensure_token` (coordinators/base.py:84-105) =
counter_reading_coordinator.py:40-47: if a (truthy) token is held, return it
with the current cookie and no network call; otherwise refresh once — one
`authenticate` call, outcome `auth` — and fail with "No token available" if
still no truthy token.  Returns (result, state after the call, number of
authenticate calls). -/
def ensure_token (st : Option AuthResult) (auth : Outcome AuthResult) :
    EnsureResult × Option AuthResult × Nat :=
  if truthyToken (tokenOf st) then
    match st with
    | some r => (.gotToken r.access_token r.cookie_value, st, 0)
    | none => (.noTokenError, st, 0)
  else
    let st' := stateAfterRefresh st auth
    if truthyToken (tokenOf st') then
      match st' with
      | some r => (.gotToken r.access_token r.cookie_value, st', 1)
      | none => (.noTokenError, st', 1)
    else
      (.noTokenError, st', 1)

/-- The delay until the next proactive auth refresh as the code computes it
(coordinator.py:58-64): clamp seconds-to-expiry at 0, then 300 if ≤ 600 else
expiry − 300, then clamp at ≥ 300. -/
def computeRefreshDelay (secs_to_expiry : Int) : Int :=
  let s := max secs_to_expiry 0
  let next := if s ≤ 600 then 300 else s - 300
  max 300 next

/-- The spec's formula for the same delay: `max(300s,
seconds_until_expiry - 300s)`. -/
def specRefreshDelay (secs_to_expiry : Int) : Int :=
  max 300 (secs_to_expiry - 300)

/-! ## Per-counter poll
(`CEMCounterReadingCoordinator._async_update_data`,
counter_reading_coordinator.py:39-75)

`fetch k` is the outcome of the k-th `get_counter_reading` call of this poll
(each such call already contains the backoff retrier internally);
`refreshAuth k` is the outcome of the k-th `auth.async_request_refresh`
triggered by this poll. -/

inductive PollFail where
  | noToken
  | noTokenAfterRefresh
  | authFailedAfterRefresh
  | failedAfterRefresh (e : PyError)
  | fetchFailed (e : PyError)
deriving DecidableEq

inductive PollResult (α : Type) where
  | success (v : α)
  | updateFailed (f : PollFail)
deriving DecidableEq

structure PollTrace (α : Type) where
  result : PollResult α
  /-- number of `auth.async_request_refresh` calls made by this poll -/
  refreshCalls : Nat
  /-- number of `get_counter_reading` calls made by this poll -/
  fetchCalls : Nat
deriving DecidableEq

/-- The body of `_async_update_data` from `try: reading = ...` on
(counter_reading_coordinator.py:49-68), with `r` auth refreshes already
performed by the ensure-token step: fetch; on a 401-classified failure
refresh the credential once and fetch exactly once more, mapping a second
401 to the "authentication failed after token refresh" error and any other
retry error to "failed after token refresh"; a non-401 initial failure is
surfaced without any refresh. -/
def pollFetch (st : Option AuthResult) (refreshAuth : Nat → Outcome AuthResult)
    (fetch : Nat → Outcome α) (r : Nat) : PollTrace α :=
  match fetch 0 with
  | .ok v => ⟨.success v, r, 1⟩
  | .fail e =>
      if is_401_error e then
        let st' := stateAfterRefresh st (refreshAuth r)
        if truthyToken (tokenOf st') = false then
          ⟨.updateFailed .noTokenAfterRefresh, r + 1, 1⟩
        else
          match fetch 1 with
          | .ok v => ⟨.success v, r + 1, 2⟩
          | .fail e' =>
              if is_401_error e' then
                ⟨.updateFailed .authFailedAfterRefresh, r + 1, 2⟩
              else ⟨.updateFailed (.failedAfterRefresh e'), r + 1, 2⟩
      else ⟨.updateFailed (.fetchFailed e), r, 1⟩

/-- Embeds `_async_update_data` (counter_reading_coordinator.py:39-75):
ensure a token (refreshing once if absent, failing with the no-token error if
still absent), then run the fetch body. -/
def pollOnce (st : Option AuthResult) (refreshAuth : Nat → Outcome AuthResult)
    (fetch : Nat → Outcome α) : PollTrace α :=
  if truthyToken (tokenOf st) = false then
    let st₀ := stateAfterRefresh st (refreshAuth 0)
    if truthyToken (tokenOf st₀) = false then ⟨.updateFailed .noToken, 1, 0⟩
    else pollFetch st₀ refreshAuth fetch 1
  else pollFetch st refreshAuth fetch 0

/-! ## Instrumented retrier

`retryGoT` is `retryGo` instrumented with a flag recording whether the result
was produced by the post-loop fallback (rather than by a `return`/`raise`
inside the loop).  It is used to state that the fallback is unreachable. -/

def retryGoT (f : Nat → Outcome α) (maxR : Nat) :
    Nat → Nat → Option PyError → RetryResult α × Nat × Bool
  | attempt, 0, last =>
      (match last with
       | some e => .raised e
       | none => .runtimeError, attempt, true)
  | attempt, r + 1, _ =>
      match f attempt with
      | .ok v => (.value v, attempt + 1, false)
      | .fail e =>
          if is_retryable_error e = false then (.raised e, attempt + 1, false)
          else if maxR ≤ attempt then (.raised e, attempt + 1, false)
          else retryGoT f maxR (attempt + 1) r (some e)

/-! ## Theorems -/

theorem retryGo_ok (f : Nat → Outcome α) (maxR attempt r : Nat)
    (last : Option PyError) (v : α) (h : f attempt = .ok v) :
    retryGo f maxR attempt (r + 1) last = (.value v, attempt + 1) := by
  simp [retryGo, h]

theorem retryGo_nonretryable (f : Nat → Outcome α) (maxR attempt r : Nat)
    (last : Option PyError) (e : PyError) (h : f attempt = .fail e)
    (h2 : is_retryable_error e = false) :
    retryGo f maxR attempt (r + 1) last = (.raised e, attempt + 1) := by
  simp [retryGo, h, h2]

theorem retryGo_lastAttempt (f : Nat → Outcome α) (maxR attempt r : Nat)
    (last : Option PyError) (e : PyError) (h : f attempt = .fail e)
    (h2 : is_retryable_error e = true) (h3 : maxR ≤ attempt) :
    retryGo f maxR attempt (r + 1) last = (.raised e, attempt + 1) := by
  simp [retryGo, h, h2, h3]

theorem retryGo_step (f : Nat → Outcome α) (maxR attempt r : Nat)
    (last : Option PyError) (e : PyError) (h : f attempt = .fail e)
    (h2 : is_retryable_error e = true) (h3 : attempt < maxR) :
    retryGo f maxR attempt (r + 1) last = retryGo f maxR (attempt + 1) r (some e) := by
  simp [retryGo, h, h2, Nat.not_le.mpr h3]

theorem retryGo_all_retryable (f : Nat → Outcome α) (maxR : Nat) :
    ∀ (r attempt : Nat) (last : Option PyError),
      attempt + r = maxR + 1 → 1 ≤ r →
      (∀ k, attempt ≤ k → k ≤ maxR →
        ∃ ek, f k = .fail ek ∧ is_retryable_error ek = true) →
      ∃ elast, f maxR = .fail elast ∧
        retryGo f maxR attempt r last = (.raised elast, maxR + 1) := by
  intro r
  induction r with
  | zero => intro attempt last hsum h1 _; omega
  | succ r ih =>
      intro attempt last hsum _ hfail
      obtain ⟨e, hfe, hre⟩ := hfail attempt (le_refl _) (by omega)
      by_cases hle : maxR ≤ attempt
      · have hA : attempt = maxR := by omega
        subst hA
        exact ⟨e, hfe, by rw [retryGo_lastAttempt f attempt attempt r last e hfe hre hle]⟩
      · rw [retryGo_step f maxR attempt r last e hfe hre (by omega)]
        exact ih (attempt + 1) (some e) (by omega) (by omega)
          (fun k hk1 hk2 => hfail k (by omega) hk2)

/-- C3: for every wrapped operation: two retryable failures followed by a
success give exactly 3 calls and the success value (for any retry budget of at
least 2 retries, which includes the default 3 used at every call site); a
first failure that is not retryable gives exactly 1 call and re-raises that
error; an operation whose every allowed attempt fails with a retryable error
is called `max_retries + 1` times and the last error is re-raised. -/
theorem c3_retrier_attempt_counting (f : Nat → Outcome α) (maxR : Nat) :
    (∀ (e0 e1 : PyError) (v : α), 2 ≤ maxR →
      f 0 = .fail e0 → is_retryable_error e0 = true →
      f 1 = .fail e1 → is_retryable_error e1 = true →
      f 2 = .ok v →
      async_retry_with_backoff f maxR = (.value v, 3)) ∧
    (∀ e : PyError, f 0 = .fail e → is_retryable_error e = false →
      async_retry_with_backoff f maxR = (.raised e, 1)) ∧
    ((∀ k, k ≤ maxR → ∃ ek, f k = .fail ek ∧ is_retryable_error ek = true) →
      ∃ elast, f maxR = .fail elast ∧
        async_retry_with_backoff f maxR = (.raised elast, maxR + 1)) := by
  refine ⟨?_, ?_, ?_⟩
  · intro e0 e1 v h2le h0 hr0 h1 hr1 h2
    obtain ⟨m, rfl⟩ : ∃ m, maxR = m + 2 := ⟨maxR - 2, by omega⟩
    unfold async_retry_with_backoff
    rw [retryGo_step f (m + 2) 0 (m + 2) none e0 h0 hr0 (by omega)]
    rw [show m + 2 = (m + 1) + 1 from rfl]
    rw [retryGo_step f (m + 2) 1 (m + 1) (some e0) e1 h1 hr1 (by omega)]
    rw [retryGo_ok f (m + 2) 2 m (some e1) v h2]
  · intro e h0 hr0
    unfold async_retry_with_backoff
    rw [retryGo_nonretryable f maxR 0 maxR none e h0 hr0]
  · intro hall
    exact retryGo_all_retryable f maxR (maxR + 1) 0 none (by omega) (by omega)
      (fun k _ hk2 => hall k hk2)

/-- Witness for C3 at concrete operations: two retryable failures (a
connection error, then a 502) followed by success with the default
`max_retries = 3`, and an operation raising `ValueError`-like non-retryable
errors. -/
theorem c3_retrier_attempt_counting_witness :
    async_retry_with_backoff
      (fun k => if k = 0 then .fail ⟨.connectorError, 0, some "conn"⟩
        else if k = 1 then .fail ⟨.responseError, 502, some "502"⟩
        else .ok (7 : Int)) 3 = (.value 7, 3) ∧
    async_retry_with_backoff
      (fun _ => (.fail ⟨.nonNetwork, 0, some "ValueError"⟩ : Outcome Int)) 3
      = (.raised ⟨.nonNetwork, 0, some "ValueError"⟩, 1) := by
  constructor
  · exact (c3_retrier_attempt_counting _ 3).1 ⟨.connectorError, 0, some "conn"⟩
      ⟨.responseError, 502, some "502"⟩ 7 (by decide) (by decide) (by decide)
      (by decide) (by decide) (by decide)
  · exact (c3_retrier_attempt_counting _ 3).2.1 ⟨.nonNetwork, 0, some "ValueError"⟩
      (by decide) (by decide)

theorem retryGoT_eq_retryGo (f : Nat → Outcome α) (maxR : Nat) :
    ∀ (r attempt : Nat) (last : Option PyError),
      retryGo f maxR attempt r last =
        ((retryGoT f maxR attempt r last).1, (retryGoT f maxR attempt r last).2.1) := by
  intro r
  induction r with
  | zero => intro attempt last; cases last <;> simp [retryGo, retryGoT]
  | succ r ih =>
      intro attempt last
      cases hf : f attempt with
      | ok v => simp [retryGo, retryGoT, hf]
      | fail e =>
          cases hre : is_retryable_error e with
          | false => simp [retryGo, retryGoT, hf, hre]
          | true =>
              by_cases hm : maxR ≤ attempt
              · simp [retryGo, retryGoT, hf, hre, hm]
              · simp [retryGo, retryGoT, hf, hre, hm, ih]

theorem retryGoT_inLoop (f : Nat → Outcome α) (maxR : Nat) :
    ∀ (r attempt : Nat) (last : Option PyError),
      attempt + r = maxR + 1 → 1 ≤ r →
      ∃ k, attempt ≤ k ∧ k ≤ maxR ∧
        retryGoT f maxR attempt r last =
          (match f k with
           | .ok v => RetryResult.value v
           | .fail e => RetryResult.raised e, k + 1, false) := by
  intro r
  induction r with
  | zero => intro attempt last hsum h1; omega
  | succ r ih =>
      intro attempt last hsum _
      cases hf : f attempt with
      | ok v => exact ⟨attempt, le_refl _, by omega, by simp [retryGoT, hf]⟩
      | fail e =>
          cases hre : is_retryable_error e with
          | false => exact ⟨attempt, le_refl _, by omega, by simp [retryGoT, hf, hre]⟩
          | true =>
              by_cases hm : maxR ≤ attempt
              · exact ⟨attempt, le_refl _, by omega, by simp [retryGoT, hf, hre, hm]⟩
              · obtain ⟨k, hk1, hk2, hk3⟩ := ih (attempt + 1) (some e) (by omega) (by omega)
                refine ⟨k, by omega, hk2, ?_⟩
                rw [show retryGoT f maxR attempt (r + 1) last
                      = retryGoT f maxR (attempt + 1) r (some e) from by
                    simp [retryGoT, hf, hre, hm]]
                exact hk3

/-- C10: for every retry budget and every behavior of the wrapped operation,
the retrier makes `k + 1 ≤ max_retries + 1` calls and its result is exactly
the outcome of the operation's final call — a returned value or a re-raised
error produced from within the attempt loop; the instrumented run shows the
post-loop fallback (re-raise `last_exception` / `RuntimeError`) is never
taken. -/
theorem c10_retrier_total_outcome (f : Nat → Outcome α) (maxR : Nat) :
    ∃ k, k ≤ maxR ∧
      (async_retry_with_backoff f maxR).2 = k + 1 ∧
      ((∃ v, f k = .ok v ∧ (async_retry_with_backoff f maxR).1 = .value v) ∨
       (∃ e, f k = .fail e ∧ (async_retry_with_backoff f maxR).1 = .raised e)) ∧
      (retryGoT f maxR 0 (maxR + 1) none).2.2 = false := by
  obtain ⟨k, _, hkM, hEq⟩ := retryGoT_inLoop f maxR (maxR + 1) 0 none (by omega) (by omega)
  have hAgr := retryGoT_eq_retryGo f maxR (maxR + 1) 0 none
  refine ⟨k, hkM, ?_, ?_, ?_⟩
  · rw [async_retry_with_backoff, hAgr, hEq]
  · rw [async_retry_with_backoff, hAgr, hEq]
    cases hf : f k with
    | ok v => exact Or.inl ⟨v, rfl, by simp [hf]⟩
    | fail e => exact Or.inr ⟨e, rfl, by simp [hf]⟩
  · rw [hEq]

/-- C4: classification by HTTP status — every response error with status in
[500,599] is retryable; status 401 is not retryable and is recognized by the
401 predicate; every other status in [400,499] is neither retryable nor a
401; connection failures, server timeouts and generic operation timeouts are
retryable. -/
theorem c4_error_classification (status : Nat) (t : Option String) :
    (500 ≤ status ∧ status < 600 →
      is_retryable_error ⟨.responseError, status, t⟩ = true) ∧
    (is_retryable_error ⟨.responseError, 401, t⟩ = false ∧
      is_401_error ⟨.responseError, 401, t⟩ = true) ∧
    (400 ≤ status ∧ status < 500 ∧ status ≠ 401 →
      is_retryable_error ⟨.responseError, status, t⟩ = false ∧
      is_401_error ⟨.responseError, status, t⟩ = false) ∧
    (is_retryable_error ⟨.connectorError, status, t⟩ = true ∧
      is_retryable_error ⟨.serverTimeout, status, t⟩ = true ∧
      is_retryable_error ⟨.asyncTimeout, status, t⟩ = true) := by
  refine ⟨?_, ⟨?_, ?_⟩, ?_, ⟨rfl, rfl, rfl⟩⟩
  · intro h
    simp only [is_retryable_error]
    rw [if_pos h]
  · simp [is_retryable_error]
  · simp [is_401_error]
  · intro h
    constructor
    · simp only [is_retryable_error]
      rw [if_neg (by omega), if_pos (by omega)]
    · simp only [is_401_error, beq_eq_false_iff_ne, ne_eq]
      omega

/-- Witness for C4 at concrete statuses 503, 401, 404 and a concrete
connection error. -/
theorem c4_error_classification_witness :
    is_retryable_error ⟨.responseError, 503, some "503"⟩ = true ∧
    is_retryable_error ⟨.responseError, 401, some "401"⟩ = false ∧
    is_401_error ⟨.responseError, 401, some "401"⟩ = true ∧
    is_retryable_error ⟨.responseError, 404, some "404"⟩ = false ∧
    is_401_error ⟨.responseError, 404, some "404"⟩ = false ∧
    is_retryable_error ⟨.connectorError, 0, some "conn"⟩ = true := by
  refine ⟨?_, ?_, ?_, ?_, ?_, ?_⟩
  · exact (c4_error_classification 503 (some "503")).1 (by decide)
  · exact (c4_error_classification 503 (some "401")).2.1.1
  · exact (c4_error_classification 503 (some "401")).2.1.2
  · exact ((c4_error_classification 404 (some "404")).2.2.1 (by decide)).1
  · exact ((c4_error_classification 404 (some "404")).2.2.1 (by decide)).2
  · exact (c4_error_classification 0 (some "conn")).2.2.2.1

/-- C9: the 401 predicate is true for every response error with status 401;
for every error without a structured status it is true exactly when the
error's textual representation contains "401", and it is false (rather than
propagating) when producing the textual representation itself fails. -/
theorem c9_textual_401_detection (k : ErrKind) (status : Nat)
    (t : Option String) (s : String) :
    (is_401_error ⟨.responseError, 401, t⟩ = true) ∧
    (k ≠ .responseError →
      is_401_error ⟨k, status, some s⟩ = containsFourOhOne s) ∧
    (k ≠ .responseError → is_401_error ⟨k, status, none⟩ = false) := by
  refine ⟨by simp [is_401_error], ?_, ?_⟩ <;>
    intro hk <;> cases k <;> simp [is_401_error] at hk ⊢

/-- Witness for C9: a 401 response error, a bare `Exception` whose text
contains "401", one whose text does not, and one whose `str` raises. -/
theorem c9_textual_401_detection_witness :
    is_401_error ⟨.responseError, 401, some "x"⟩ = true ∧
    is_401_error ⟨.nonNetwork, 0, some "HTTP 401 Unauthorized"⟩ = true ∧
    is_401_error ⟨.nonNetwork, 0, some "connection reset"⟩ = false ∧
    is_401_error ⟨.nonNetwork, 0, none⟩ = false := by
  refine ⟨?_, ?_, ?_, ?_⟩
  · exact (c9_textual_401_detection .nonNetwork 0 (some "x") "x").1
  · rw [(c9_textual_401_detection .nonNetwork 0 (some "x")
      "HTTP 401 Unauthorized").2.1 (by decide)]
    decide
  · rw [(c9_textual_401_detection .nonNetwork 0 (some "x")
      "connection reset").2.1 (by decide)]
    decide
  · exact (c9_textual_401_detection .nonNetwork 0 (some "x") "x").2.2 (by decide)

/-- C8: the code's branching computation of the proactive refresh delay
equals the spec formula `max(300, seconds_until_expiry - 300)` for every
non-negative seconds-to-expiry. -/
theorem c8_refresh_delay_formula (s : Int) (h : 0 ≤ s) :
    computeRefreshDelay s = specRefreshDelay s := by
  simp only [computeRefreshDelay, specRefreshDelay]
  rcases le_or_lt s 600 with h6 | h6
  · rw [max_eq_left h, if_pos h6]
    rw [max_eq_left (by omega), max_eq_left (by omega)]
  · rw [max_eq_left h, if_neg (by omega)]

/-- Witness for C8 on both sides of the 600-second branch. -/
theorem c8_refresh_delay_formula_witness :
    (0 : Int) ≤ 450 ∧ computeRefreshDelay 450 = specRefreshDelay 450 ∧
    (0 : Int) ≤ 4000 ∧ computeRefreshDelay 4000 = specRefreshDelay 4000 :=
  ⟨by decide, c8_refresh_delay_formula 450 (by decide),
   by decide, c8_refresh_delay_formula 4000 (by decide)⟩

/-- Shared helper: the tick when the first POST of the combined request
already yields a successfully parsed dict `m`. -/
theorem tick_success (env : TickEnv) (m : List (Int × Reading))
    (hne : env.tracked ≠ []) (ht : env.hasToken = true) (hc : env.hasClient = true)
    (h0 : doBatchAttempt env.tracked (env.transport 0) = .ok m) :
    counterRefreshTick env =
      ⟨env.tracked.map
        (fun vid =>
          (vid,
           match lookupKey m vid with
           | some r => .updatedFromBatch r
           | none => .individualRepoll)), 1, 0⟩ := by
  have hbatch : get_counter_readings_batch env.tracked env.transport = (.value m, 1) := by
    unfold get_counter_readings_batch async_retry_with_backoff
    exact retryGo_ok _ 3 0 3 none m h0
  unfold counterRefreshTick
  rw [if_neg (by simp [List.isEmpty_iff, hne]), if_neg (by simp [ht]),
    if_neg (by simp [hc]), hbatch]

/-- C1: a tick whose combined request succeeds issues exactly one POST to the
combined endpoint and performs no credential refresh; a tracked resource's
coordinator data is overwritten with reading `r` from the combined response
exactly when its key maps to `r` there, and it is individually re-polled
exactly when its key is absent. -/
theorem c1_batch_reconciliation (env : TickEnv) (m : List (Int × Reading))
    (hne : env.tracked ≠ []) (ht : env.hasToken = true) (hc : env.hasClient = true)
    (h0 : doBatchAttempt env.tracked (env.transport 0) = .ok m) :
    (counterRefreshTick env).batchCalls = 1 ∧
    (counterRefreshTick env).authRefreshes = 0 ∧
    (∀ vid r, (vid, CoordAction.updatedFromBatch r) ∈ (counterRefreshTick env).actions ↔
      vid ∈ env.tracked ∧ lookupKey m vid = some r) ∧
    (∀ vid, (vid, CoordAction.individualRepoll) ∈ (counterRefreshTick env).actions ↔
      vid ∈ env.tracked ∧ lookupKey m vid = none) := by
  rw [tick_success env m hne ht hc h0]
  refine ⟨rfl, rfl, ?_, ?_⟩
  · intro vid r
    simp only [List.mem_map, Prod.mk.injEq]
    constructor
    · rintro ⟨x, hx, rfl, hact⟩
      refine ⟨hx, ?_⟩
      cases hl : lookupKey m x <;> simp [hl] at hact
      exact hact ▸ rfl
    · rintro ⟨hv, hl⟩
      exact ⟨vid, hv, rfl, by simp [hl]⟩
  · intro vid
    simp only [List.mem_map, Prod.mk.injEq]
    constructor
    · rintro ⟨x, hx, rfl, hact⟩
      refine ⟨hx, ?_⟩
      cases hl : lookupKey m x <;> simp [hl] at hact ⊢
    · rintro ⟨hv, hl⟩
      exact ⟨vid, hv, rfl, by simp [hl]⟩

def envC1 : TickEnv :=
  ⟨[1, 2, 3], true, true,
   fun _ => .ok (.list [⟨some 1, some 10, some 100⟩, ⟨some 2, some 20, some 200⟩])⟩

def mC1 : List (Int × Reading) := [(1, ⟨10, 100⟩), (2, ⟨20, 200⟩)]

/-- Witness for C1: 3 tracked resources, combined response holding only keys
1 and 2 — those two are updated from the combined response, key 3 is
individually re-polled, and the combined endpoint is POSTed exactly once. -/
theorem c1_batch_reconciliation_witness :
    (counterRefreshTick envC1).batchCalls = 1 ∧
    (1, CoordAction.updatedFromBatch ⟨10, 100⟩) ∈ (counterRefreshTick envC1).actions ∧
    (2, CoordAction.updatedFromBatch ⟨20, 200⟩) ∈ (counterRefreshTick envC1).actions ∧
    (3, CoordAction.individualRepoll) ∈ (counterRefreshTick envC1).actions := by
  have h := c1_batch_reconciliation envC1 mC1 (by decide) rfl rfl (by decide)
  exact ⟨h.1, (h.2.2.1 1 ⟨10, 100⟩).mpr (by decide),
    (h.2.2.1 2 ⟨20, 200⟩).mpr (by decide), (h.2.2.2 3).mpr (by decide)⟩

/-- C5: a syntactically valid combined response with zero entries, while at
least one key was requested, behaves exactly as all-keys-missing — every
tracked resource is individually re-polled and none is updated from the
batch. -/
theorem c5_empty_batch_full_fallback (env : TickEnv)
    (hne : env.tracked ≠ []) (ht : env.hasToken = true) (hc : env.hasClient = true)
    (h0 : env.transport 0 = .ok (.list [])) :
    (counterRefreshTick env).batchCalls = 1 ∧
    (counterRefreshTick env).actions =
      env.tracked.map (fun vid => (vid, .individualRepoll)) ∧
    (∀ vid r, (vid, CoordAction.updatedFromBatch r) ∉ (counterRefreshTick env).actions) := by
  have hp : doBatchAttempt env.tracked (env.transport 0) = .ok [] := by
    rw [h0]
    simp [doBatchAttempt, doBatchOnce, List.isEmpty_iff, hne]
  rw [tick_success env [] hne ht hc hp]
  refine ⟨rfl, rfl, ?_⟩
  intro vid r
  simp [List.mem_map, lookupKey]

def envC5 : TickEnv := ⟨[4, 5], true, true, fun _ => .ok (.list [])⟩

/-- Witness for C5: two requested keys, empty combined response — both fall
back to individual polling. -/
theorem c5_empty_batch_full_fallback_witness :
    (counterRefreshTick envC5).batchCalls = 1 ∧
    (counterRefreshTick envC5).actions =
      [(4, CoordAction.individualRepoll), (5, CoordAction.individualRepoll)] := by
  have h := c5_empty_batch_full_fallback envC5 (by decide) rfl rfl rfl
  exact ⟨h.1, h.2.1⟩

def errBatch401 : PyError := ⟨.responseError, 401, some "401, message='Unauthorized'"⟩

def envC6 : TickEnv := ⟨[1, 2], true, true, fun _ => .fail errBatch401⟩

/-- C6 fails on the code: when the combined request raises a 401, the tick
performs zero forced credential refreshes and POSTs the combined endpoint
exactly once (no retry of the combined request) — it falls back to
individual polls instead of the claimed refresh-then-retry-once policy. -/
theorem c6_counterexample :
    is_401_error errBatch401 = true ∧
    counterRefreshTick envC6 =
      ⟨[(1, CoordAction.individualRepoll), (2, CoordAction.individualRepoll)], 1, 0⟩ ∧
    ¬ ((counterRefreshTick envC6).authRefreshes = 1 ∧
       (counterRefreshTick envC6).batchCalls = 2) := by
  decide

/-- C6 amended: the combined request is wrapped by the retrier, which raises
a 401-classified error after exactly one POST; the tick then performs no
credential refresh and no retry of the combined request, and instead every
tracked resource falls back to its own individual poll (whose coordinator
applies the per-resource 401 policy). -/
theorem c6_batch_401_policy (env : TickEnv) (e : PyError)
    (hne : env.tracked ≠ []) (ht : env.hasToken = true) (hc : env.hasClient = true)
    (h0 : env.transport 0 = .fail e) (_h401 : is_401_error e = true)
    (hnr : is_retryable_error e = false) :
    (counterRefreshTick env).batchCalls = 1 ∧
    (counterRefreshTick env).authRefreshes = 0 ∧
    (counterRefreshTick env).actions =
      env.tracked.map (fun vid => (vid, .individualRepoll)) := by
  have hbatch : get_counter_readings_batch env.tracked env.transport = (.raised e, 1) := by
    unfold get_counter_readings_batch async_retry_with_backoff
    exact retryGo_nonretryable _ 3 0 3 none e
      (by show doBatchAttempt _ (env.transport 0) = _; rw [h0]; rfl) hnr
  unfold counterRefreshTick
  rw [if_neg (by simp [List.isEmpty_iff, hne]), if_neg (by simp [ht]),
    if_neg (by simp [hc]), hbatch]
  exact ⟨rfl, rfl, rfl⟩

/-- Witness for the amended C6 at the concrete two-resource environment. -/
theorem c6_batch_401_policy_witness :
    (counterRefreshTick envC6).batchCalls = 1 ∧
    (counterRefreshTick envC6).authRefreshes = 0 ∧
    (counterRefreshTick envC6).actions =
      [(1, CoordAction.individualRepoll), (2, CoordAction.individualRepoll)] := by
  have h := c6_batch_401_policy envC6 errBatch401 (by decide) rfl rfl rfl
    (by decide) (by decide)
  exact ⟨h.1, h.2.1, h.2.2⟩

/-- C2: with a token held, a 401-classified fetch failure triggers exactly one
forced credential refresh and exactly one further fetch: a successful retry
yields its value (1 refresh, 2 fetches); a second 401 yields the
"authentication failed after token refresh" failure without looping further;
a non-401 retry failure is surfaced as "failed after token refresh"; a
non-401 initial failure is surfaced with zero refreshes. -/
theorem c2_poll_401_escalation (st : Option AuthResult)
    (refreshAuth : Nat → Outcome AuthResult) (fetch : Nat → Outcome α)
    (htok : truthyToken (tokenOf st) = true)
    (htok' : truthyToken (tokenOf (stateAfterRefresh st (refreshAuth 0))) = true) :
    (∀ (e : PyError) (v : α), fetch 0 = .fail e → is_401_error e = true →
      fetch 1 = .ok v →
      pollOnce st refreshAuth fetch = ⟨.success v, 1, 2⟩) ∧
    (∀ e e2 : PyError, fetch 0 = .fail e → is_401_error e = true →
      fetch 1 = .fail e2 → is_401_error e2 = true →
      pollOnce st refreshAuth fetch = ⟨.updateFailed .authFailedAfterRefresh, 1, 2⟩) ∧
    (∀ e e2 : PyError, fetch 0 = .fail e → is_401_error e = true →
      fetch 1 = .fail e2 → is_401_error e2 = false →
      pollOnce st refreshAuth fetch = ⟨.updateFailed (.failedAfterRefresh e2), 1, 2⟩) ∧
    (∀ e : PyError, fetch 0 = .fail e → is_401_error e = false →
      pollOnce st refreshAuth fetch = ⟨.updateFailed (.fetchFailed e), 0, 1⟩) := by
  refine ⟨?_, ?_, ?_, ?_⟩
  · intro e v h0 h401 h1
    simp [pollOnce, htok, pollFetch, h0, h401, htok', h1]
  · intro e e2 h0 h401 h1 h401'
    simp [pollOnce, htok, pollFetch, h0, h401, htok', h1, h401']
  · intro e e2 h0 h401 h1 h401'
    simp [pollOnce, htok, pollFetch, h0, h401, htok', h1, h401']
  · intro e h0 h401
    simp [pollOnce, htok, pollFetch, h0, h401]

def stC2 : Option AuthResult := some ⟨"tok", 1700003600000, some "cookie"⟩

def refreshC2 : Nat → Outcome AuthResult :=
  fun _ => .ok ⟨"tok2", 1700007200000, some "cookie2"⟩

def errFetch401 : PyError := ⟨.responseError, 401, some "401, message='Unauthorized'"⟩

def fetchC2 : Nat → Outcome Reading :=
  fun k => if k = 0 then .fail errFetch401 else .ok ⟨55, 1700000000000⟩

/-- Witness for C2: a fetch that 401s once and succeeds after the refresh
yields the value with exactly one refresh and two fetches. -/
theorem c2_poll_401_escalation_witness :
    pollOnce stC2 refreshC2 fetchC2 = ⟨.success ⟨55, 1700000000000⟩, 1, 2⟩ :=
  (c2_poll_401_escalation stC2 refreshC2 fetchC2 (by decide) (by decide)).1
    errFetch401 ⟨55, 1700000000000⟩ (by decide) (by decide) (by decide)

def stC7expired : Option AuthResult := some ⟨"staletok", 1700000000000, none⟩

def authC7 : Outcome AuthResult := .ok ⟨"freshtok", 1700007200000, none⟩

/-- C7 fails on the code: `_ensure_token` checks only token presence, never
expiry.  With a stored token whose `valid_to_ms` (1700000000000) has passed —
the current time being 1700003600000 ms — the code returns the stale token
with zero authenticate calls, where the claim requires a fresh authenticate
call for a token that has passed its expiry. -/
theorem c7_counterexample :
    (∀ r, stC7expired = some r → r.valid_to_ms < 1700003600000) ∧
    ensure_token stC7expired authC7 = (.gotToken "staletok" none, stC7expired, 0) ∧
    ¬ (ensure_token stC7expired authC7).2.2 = 1 := by
  decide

/-- C7 amended: `_ensure_token` checks only the presence of a (non-empty)
token, not its expiry.  A held token is returned immediately with zero
authenticate calls regardless of expiry; with no token held, exactly one
refresh/authenticate is performed — its success stores and returns the
fresh credential, its failure (or an empty token) raises the no-token error —
and two successive calls starting with no token perform exactly one
authenticate call in total. -/
theorem c7_ensure_token (st : Option AuthResult) (auth auth2 : Outcome AuthResult) :
    (∀ r, st = some r → r.access_token.isEmpty = false →
      ensure_token st auth = (.gotToken r.access_token r.cookie_value, st, 0)) ∧
    (∀ r, st = none → auth = .ok r → r.access_token.isEmpty = false →
      ensure_token st auth = (.gotToken r.access_token r.cookie_value, some r, 1)) ∧
    (∀ e, st = none → auth = .fail e →
      ensure_token st auth = (.noTokenError, none, 1)) ∧
    (∀ r, st = none → auth = .ok r → r.access_token.isEmpty = false →
      (ensure_token st auth).2.2 +
        (ensure_token (ensure_token st auth).2.1 auth2).2.2 = 1) := by
  refine ⟨?_, ?_, ?_, ?_⟩
  · rintro r rfl hne
    simp [ensure_token, tokenOf, truthyToken, hne]
  · rintro r rfl rfl hne
    simp [ensure_token, tokenOf, truthyToken, stateAfterRefresh, hne]
  · rintro e rfl rfl
    simp [ensure_token, tokenOf, truthyToken, stateAfterRefresh]
  · rintro r rfl rfl hne
    simp [ensure_token, tokenOf, truthyToken, stateAfterRefresh, hne]

/-- Witness for the amended C7: starting with no credential, two successive
ensure-token calls perform exactly one authenticate call, and the stored
token is reused by the second call. -/
theorem c7_ensure_token_witness :
    ensure_token none authC7 =
      (.gotToken "freshtok" none, some ⟨"freshtok", 1700007200000, none⟩, 1) ∧
    (ensure_token none authC7).2.2 +
      (ensure_token (ensure_token none authC7).2.1 authC7).2.2 = 1 := by
  have h := c7_ensure_token none authC7 authC7
  exact ⟨h.2.1 ⟨"freshtok", 1700007200000, none⟩ rfl rfl (by decide),
    h.2.2.2 ⟨"freshtok", 1700007200000, none⟩ rfl rfl (by decide)⟩

end CEM
